import Mathlib

/-
Verification of the program-wrapper module of cf4ocl (C Framework for
OpenCL), embedded shallowly from src/src/lib/program_wrapper.h.

The repository excerpt contains only the header: the declarations, the
documentation of each function, and the macros that are defined in the
header itself (the info macros, ccl_program_ref, ccl_program_unref,
ccl_program_unwrap).  The bodies that live in program_wrapper.c and
abstract_wrapper.c are absent, so those operations are modelled from the
specification and from the header documentation; each such definition
carries a doc comment starting with "Modelled from the spec:".  The
underlying OpenCL runtime (clBuildProgram, clCreateKernel,
clGetProgramInfo, ...) is external to the repository and is represented
by oracle parameters; where a claim speaks about the calls made to the
runtime, the embedding returns an explicit trace of those calls.
-/

namespace Cf4ocl

/-- Constant CL_SUCCESS from the OpenCL headers (cl.h). -/
def CL_SUCCESS : Int := 0

/-- Constant CL_INVALID_VALUE from the OpenCL headers (cl.h). -/
def CL_INVALID_VALUE : Int := -30

/-- Constant CL_INVALID_KERNEL_NAME from the OpenCL headers (cl.h). -/
def CL_INVALID_KERNEL_NAME : Int := -46

/-- Constant CL_PROGRAM_BINARIES from the OpenCL headers (cl.h). -/
def CL_PROGRAM_BINARIES : Nat := 0x1166

/-- Error domain used by the wrapper when it translates an OpenCL error
code into a GError (the CCL_OCL_ERROR quark of cf4ocl); quark ids are
modelled as natural numbers. -/
def CCL_OCL_ERROR : Nat := 1

/-- GLib GError record: an error domain (quark), an integer error code
and a message. -/
structure GError where
  domain : Nat
  code : Int
  message : String
deriving Repr, DecidableEq

/-- Model of a `GError**` argument: `none` is a NULL pointer (the caller
ignores error reporting), `some v` is a valid pointer whose pointee
currently holds `v` (`some g` a GError, `none` no error yet). -/
abbrev GErrorPtr := Option (Option GError)

/-- Modelled from the spec: the GLib g_set_error convention used by the
wrapper functions (bodies absent from src) to report a translated
OpenCL error through a `GError**` argument — when the pointer is NULL
nothing happens, otherwise the pointee is set to a GError in the
CCL_OCL_ERROR domain carrying the OpenCL error code. -/
def ccl_set_error (err : GErrorPtr) (code : Int) (message : String) : GErrorPtr :=
  match err with
  | none => none
  | some _ => some (some { domain := CCL_OCL_ERROR, code := code, message := message })

/-- Program wrapper class (struct ccl_program, typedef CCLProgram).
`handle` is the wrapped cl_program (an opaque runtime handle, modelled
as a Nat); `ref_count` is the reference count of the abstract wrapper;
`devices` are the device wrappers the program is associated with (the
CCLDevContainer part); `kernel_names` models the kernel functions
present in the wrapped cl_program (runtime state carried alongside the
handle); `krnls` is the per-name cache of kernel wrapper objects kept
by the program wrapper, and `next_uid` the allocator for fresh kernel
wrapper identities. -/
structure CCLProgram where
  handle : Nat
  ref_count : Nat
  devices : List Nat
  kernel_names : List String
  krnls : List (String × Nat)
  next_uid : Nat
deriving Repr, DecidableEq

/- ***************************** -/
/- REFERENCE COUNTING OPERATIONS -/
/- ***************************** -/

/-- Modelled from the spec: body of ccl_program_destroy (program_wrapper.c
is absent from src).  Header documentation, lines 82-84: "Decrements the
reference count of the program wrapper object.  If it reaches 0, the
program wrapper object is destroyed"; destruction releases the wrapped
cl_program handle as well.  The result is `none` when the wrapper (and
its handle) is destroyed, and `some` of the surviving wrapper
otherwise. -/
def ccl_program_destroy (prg : CCLProgram) : Option CCLProgram :=
  if prg.ref_count - 1 = 0 then none
  else some { prg with ref_count := prg.ref_count - 1 }

/-- Modelled from the spec: body of ccl_wrapper_ref (abstract_wrapper.c is
absent from src) — increases the reference count of the wrapper
object. -/
def ccl_wrapper_ref (prg : CCLProgram) : CCLProgram :=
  { prg with ref_count := prg.ref_count + 1 }

/-- Header macro, line 370: ccl_program_ref casts to CCLWrapper* and
forwards to ccl_wrapper_ref. -/
def ccl_program_ref (prg : CCLProgram) : CCLProgram :=
  ccl_wrapper_ref prg

/-- Header macro, line 379: ccl_program_unref is an alias to
ccl_program_destroy. -/
def ccl_program_unref (prg : CCLProgram) : Option CCLProgram :=
  ccl_program_destroy prg

/-- Header macro, line 387: ccl_program_unwrap returns the wrapped
OpenCL program object. -/
def ccl_program_unwrap (prg : CCLProgram) : Nat :=
  prg.handle

/-- Claim C1: for every program wrapper with reference count n >= 1,
ccl_program_destroy decrements the reference count; the wrapper (and its
wrapped cl_program handle) is destroyed exactly when the decremented
count reaches zero, and when n > 1 the wrapper survives with count
n - 1 (same handle). -/
theorem ccl_program_destroy_refcount (prg : CCLProgram) (h : 1 ≤ prg.ref_count) :
    ccl_program_destroy prg =
      (if prg.ref_count = 1 then none
       else some { prg with ref_count := prg.ref_count - 1 }) ∧
    ((ccl_program_destroy prg).isSome = true ↔ prg.ref_count - 1 ≠ 0) := by
  constructor
  · by_cases h1 : prg.ref_count = 1
    · simp [ccl_program_destroy, h1]
    · have h2 : ¬ (prg.ref_count - 1 = 0) := by omega
      simp [ccl_program_destroy, h1, h2]
  · by_cases h2 : prg.ref_count - 1 = 0 <;> simp [ccl_program_destroy, h2]

/-- Witness for claim C1 at a concrete wrapper with reference count 2:
destroy leaves the wrapper alive with count 1 and the same handle. -/
theorem ccl_program_destroy_refcount_witness :
    (1 ≤ (CCLProgram.mk 7 2 [] [] [] 0).ref_count) ∧
    (ccl_program_destroy (CCLProgram.mk 7 2 [] [] [] 0) =
      (if (CCLProgram.mk 7 2 [] [] [] 0).ref_count = 1 then none
       else some { CCLProgram.mk 7 2 [] [] [] 0 with
         ref_count := (CCLProgram.mk 7 2 [] [] [] 0).ref_count - 1 }) ∧
     ((ccl_program_destroy (CCLProgram.mk 7 2 [] [] [] 0)).isSome = true ↔
       (CCLProgram.mk 7 2 [] [] [] 0).ref_count - 1 ≠ 0)) :=
  ⟨by decide, ccl_program_destroy_refcount (CCLProgram.mk 7 2 [] [] [] 0) (by decide)⟩

/-- Claim C7: for every live program wrapper with reference count
n >= 1, ccl_program_ref followed by ccl_program_unref returns the
wrapper to its original state — the count is again n and the wrapper is
never destroyed by the pair. -/
theorem ccl_program_ref_unref_roundtrip (prg : CCLProgram) (h : 1 ≤ prg.ref_count) :
    ccl_program_unref (ccl_program_ref prg) = some prg := by
  have h1 : ¬ (prg.ref_count = 0) := by omega
  simp [ccl_program_unref, ccl_program_destroy, ccl_program_ref, ccl_wrapper_ref, h1]

/-- Witness for claim C7 at a concrete wrapper with reference count 1. -/
theorem ccl_program_ref_unref_roundtrip_witness :
    (1 ≤ (CCLProgram.mk 3 1 [] [] [] 0).ref_count) ∧
    ccl_program_unref (ccl_program_ref (CCLProgram.mk 3 1 [] [] [] 0)) =
      some (CCLProgram.mk 3 1 [] [] [] 0) :=
  ⟨by decide, ccl_program_ref_unref_roundtrip (CCLProgram.mk 3 1 [] [] [] 0) (by decide)⟩

/-- Claim C9: ccl_program_unref performs exactly the state change of
ccl_program_destroy on every program wrapper — in the header (line 379)
ccl_program_unref is literally defined as an alias to
ccl_program_destroy, so the two are interchangeable. -/
theorem ccl_program_unref_eq_destroy (prg : CCLProgram) :
    ccl_program_unref prg = ccl_program_destroy prg := rfl

/- ******************** -/
/- WRAPPER OBJECT CACHE -/
/- ******************** -/

/-- Entry of the global wrapper table kept by the abstract wrapper
layer: the underlying OpenCL object (here a cl_program handle), the
identity of the wrapper object created for it, and the reference count
of that wrapper. -/
structure CCLWrapperEntry where
  cl_object : Nat
  uid : Nat
  ref_count : Nat
deriving Repr, DecidableEq

/-- Global state of the abstract wrapper layer: the table of live
wrapper objects, keyed by the wrapped OpenCL object, together with an
allocator for fresh wrapper identities. -/
structure CCLWrapperTable where
  next_uid : Nat
  entries : List CCLWrapperEntry
deriving Repr, DecidableEq

/-- Modelled from the spec: the reference-count increase performed by
the wrapper layer on the cached entry of an already wrapped OpenCL
object (part of the absent ccl_program_new_wrap body). -/
def ccl_wrapper_bump (program : Nat) (e2 : CCLWrapperEntry) : CCLWrapperEntry :=
  if e2.cl_object == program then { e2 with ref_count := e2.ref_count + 1 }
  else e2

/-- Modelled from the spec: body of ccl_program_new_wrap
(program_wrapper.c and the abstract wrapper layer it delegates to are
absent from src).  Header, lines 79-80: "Get the program wrapper for
the given OpenCL program"; spec: the layer performs "object caching" —
one wrapper per underlying OpenCL object.  When a wrapper for the given
cl_program already exists its reference count is increased and the
cached wrapper is returned; otherwise a fresh wrapper with reference
count 1 is created and recorded.  The returned Nat is the identity of
the wrapper object. -/
def ccl_program_new_wrap (tbl : CCLWrapperTable) (program : Nat) :
    CCLWrapperTable × Nat :=
  match tbl.entries.find? (fun e => e.cl_object == program) with
  | some e =>
    ({ tbl with entries := tbl.entries.map (ccl_wrapper_bump program) }, e.uid)
  | none =>
    ({ next_uid := tbl.next_uid + 1,
       entries := CCLWrapperEntry.mk program tbl.next_uid 1 :: tbl.entries },
     tbl.next_uid)

lemma cl_object_of_bump (program : Nat) (e2 : CCLWrapperEntry) :
    (ccl_wrapper_bump program e2).cl_object = e2.cl_object := by
  by_cases h : e2.cl_object == program <;> simp [ccl_wrapper_bump, h]

lemma uid_of_bump (program : Nat) (e2 : CCLWrapperEntry) :
    (ccl_wrapper_bump program e2).uid = e2.uid := by
  by_cases h : e2.cl_object == program <;> simp [ccl_wrapper_bump, h]

lemma find?_map_bump (program : Nat) (l : List CCLWrapperEntry) :
    (l.map (ccl_wrapper_bump program)).find? (fun e => e.cl_object == program) =
      (l.find? (fun e => e.cl_object == program)).map (ccl_wrapper_bump program) := by
  rw [List.find?_map]
  have hpred : ((fun e : CCLWrapperEntry => e.cl_object == program) ∘
      ccl_wrapper_bump program) = (fun e : CCLWrapperEntry => e.cl_object == program) := by
    funext e2
    simp [Function.comp, cl_object_of_bump]
  rw [hpred]

/-- Claim C2: for every native cl_program handle, calling
ccl_program_new_wrap again on the state produced by a first call
returns the same wrapper object (same identity) and allocates no new
wrapper: the layer caches one wrapper per underlying OpenCL object. -/
theorem ccl_program_new_wrap_cached (tbl : CCLWrapperTable) (program : Nat) :
    (ccl_program_new_wrap (ccl_program_new_wrap tbl program).1 program).2 =
      (ccl_program_new_wrap tbl program).2 ∧
    (ccl_program_new_wrap (ccl_program_new_wrap tbl program).1 program).1.next_uid =
      (ccl_program_new_wrap tbl program).1.next_uid := by
  cases hfind : tbl.entries.find? (fun e => e.cl_object == program) with
  | none =>
    simp [ccl_program_new_wrap, hfind]
  | some e =>
    have hfind2 : (tbl.entries.map (ccl_wrapper_bump program)).find?
        (fun e => e.cl_object == program) = some (ccl_wrapper_bump program e) := by
      rw [find?_map_bump, hfind]
      rfl
    simp [ccl_program_new_wrap, hfind, hfind2, uid_of_bump]

/- ******************************* -/
/- KERNEL RELATED HELPER FUNCTIONS -/
/- ******************************* -/

/-- Modelled from the spec: body of ccl_program_get_kernel
(program_wrapper.c is absent from src).  Header, lines 175-178: "Get
the kernel wrapper object for the given program kernel function"; spec:
the layer performs "object caching" and wraps clCreateKernel.  The
program wrapper keeps a per-name cache of kernel wrappers (the krnls
table): a cached wrapper is returned as is; otherwise a kernel wrapper
is created for the named kernel function — clCreateKernel succeeds when
the name is a kernel function of the built program and fails with
CL_INVALID_KERNEL_NAME otherwise, in which case NULL (none) is returned
and the error is reported through err.  Returns the updated program
wrapper, the kernel wrapper identity (none for NULL) and the err
location. -/
def ccl_program_get_kernel (prg : CCLProgram) (kernel_name : String)
    (err : GErrorPtr) : CCLProgram × Option Nat × GErrorPtr :=
  match prg.krnls.find? (fun kv => kv.1 == kernel_name) with
  | some kv => (prg, some kv.2, err)
  | none =>
    if kernel_name ∈ prg.kernel_names then
      ({ prg with
         krnls := (kernel_name, prg.next_uid) :: prg.krnls,
         next_uid := prg.next_uid + 1 },
       some prg.next_uid, err)
    else
      (prg, none, ccl_set_error err CL_INVALID_KERNEL_NAME "unable to create kernel")

/-- Claim C6: for every program wrapper containing a kernel function
named kernel_name, ccl_program_get_kernel returns a non-NULL kernel
wrapper, and a repeated call with the same name returns the same cached
kernel wrapper object and leaves the program wrapper state unchanged. -/
theorem ccl_program_get_kernel_cached (prg : CCLProgram) (kernel_name : String)
    (err : GErrorPtr) (h : kernel_name ∈ prg.kernel_names) :
    ((ccl_program_get_kernel prg kernel_name err).2.1).isSome = true ∧
    ccl_program_get_kernel (ccl_program_get_kernel prg kernel_name err).1
        kernel_name err =
      ((ccl_program_get_kernel prg kernel_name err).1,
       (ccl_program_get_kernel prg kernel_name err).2.1, err) := by
  cases hfind : prg.krnls.find? (fun kv => kv.1 == kernel_name) with
  | some kv =>
    simp [ccl_program_get_kernel, hfind]
  | none =>
    have hfind2 : (((kernel_name, prg.next_uid) :: prg.krnls).find?
        (fun kv => kv.1 == kernel_name)) = some (kernel_name, prg.next_uid) := by
      simp [List.find?_cons]
    simp [ccl_program_get_kernel, hfind, h, hfind2]

/-- Witness for claim C6 at a concrete program wrapper containing the
kernel function "vecadd" and starting with an empty kernel cache. -/
theorem ccl_program_get_kernel_cached_witness :
    ("vecadd" ∈ (CCLProgram.mk 7 1 [4] ["vecadd"] [] 0).kernel_names) ∧
    (((ccl_program_get_kernel (CCLProgram.mk 7 1 [4] ["vecadd"] [] 0) "vecadd"
        none).2.1).isSome = true ∧
     ccl_program_get_kernel
         (ccl_program_get_kernel (CCLProgram.mk 7 1 [4] ["vecadd"] [] 0) "vecadd"
           none).1 "vecadd" none =
       ((ccl_program_get_kernel (CCLProgram.mk 7 1 [4] ["vecadd"] [] 0) "vecadd"
          none).1,
        (ccl_program_get_kernel (CCLProgram.mk 7 1 [4] ["vecadd"] [] 0) "vecadd"
          none).2.1, none)) :=
  ⟨by simp,
   ccl_program_get_kernel_cached (CCLProgram.mk 7 1 [4] ["vecadd"] [] 0) "vecadd"
     none (by simp)⟩

/- *************************** -/
/- KERNEL ENQUEUE (VARIADIC)   -/
/- *************************** -/

/-- Event wrapper produced by enqueuing a kernel: records the enqueue
request passed down to clEnqueueNDRangeKernel — the kernel wrapper, the
queue, the work geometry, the wait list and the kernel arguments. -/
structure CCLEvent where
  kernel_uid : Nat
  queue : Nat
  work_dim : Nat
  global_work_offset : List Nat
  global_work_size : List Nat
  local_work_size : List Nat
  wait_list : List Nat
  args : List Nat
deriving Repr, DecidableEq

/-- Modelled from the spec: body of ccl_program_enqueue_kernel_v
(program_wrapper.c is absent from src).  Header, lines 187-192:
"Enqueues a program kernel function for execution on a device", taking
the kernel arguments as a NULL-terminated CCLArg* array (here the list
args).  The function looks up the kernel wrapper for kernel_name via
ccl_program_get_kernel, then enqueues it with the given work geometry,
wait list and arguments, returning the resulting event wrapper; when
the kernel cannot be obtained it returns NULL (none). -/
def ccl_program_enqueue_kernel_v (prg : CCLProgram) (kernel_name : String)
    (cq : Nat) (work_dim : Nat) (global_work_offset : List Nat)
    (global_work_size : List Nat) (local_work_size : List Nat)
    (evt_wait_lst : List Nat) (args : List Nat) (err : GErrorPtr) :
    CCLProgram × Option CCLEvent × GErrorPtr :=
  match ccl_program_get_kernel prg kernel_name err with
  | (prg2, some k, err2) =>
    (prg2,
     some (CCLEvent.mk k cq work_dim global_work_offset global_work_size
       local_work_size evt_wait_lst args),
     err2)
  | (prg2, none, err2) => (prg2, none, err2)

/-- Modelled from the spec: the collection of the variadic arguments of
ccl_program_enqueue_kernel (G_GNUC_NULL_TERMINATED, header line 185)
into an array — the NULL-terminated argument sequence is read in order
up to the first NULL.  A variadic frame is modelled as a list of
`Option Nat` where `none` is the terminating NULL. -/
def ccl_enqueue_args_from_va : List (Option Nat) → List Nat
  | [] => []
  | none :: _ => []
  | some a :: rest => a :: ccl_enqueue_args_from_va rest

/-- Modelled from the spec: body of the variadic ccl_program_enqueue_kernel
(program_wrapper.c is absent from src).  Header, lines 180-185: same
documentation as ccl_program_enqueue_kernel_v but the kernel arguments
are passed as a NULL-terminated variadic list; the function collects
them into an array and performs the enqueue of
ccl_program_enqueue_kernel_v. -/
def ccl_program_enqueue_kernel (prg : CCLProgram) (kernel_name : String)
    (cq : Nat) (work_dim : Nat) (global_work_offset : List Nat)
    (global_work_size : List Nat) (local_work_size : List Nat)
    (evt_wait_lst : List Nat) (err : GErrorPtr)
    (varargs : List (Option Nat)) :
    CCLProgram × Option CCLEvent × GErrorPtr :=
  ccl_program_enqueue_kernel_v prg kernel_name cq work_dim global_work_offset
    global_work_size local_work_size evt_wait_lst
    (ccl_enqueue_args_from_va varargs) err

lemma ccl_enqueue_args_from_va_terminated (args : List Nat) :
    ccl_enqueue_args_from_va (args.map some ++ [none]) = args := by
  induction args with
  | nil => rfl
  | cons a rest ih => simp [ccl_enqueue_args_from_va, ih]

/-- Claim C10: for every program wrapper, kernel name, queue, work
geometry and wait list, the variadic ccl_program_enqueue_kernel called
with a NULL-terminated sequence of kernel arguments returns the same
event wrapper and produces the same state change as
ccl_program_enqueue_kernel_v called with those arguments collected, in
order, into a NULL-terminated array. -/
theorem ccl_program_enqueue_kernel_matches_v (prg : CCLProgram)
    (kernel_name : String) (cq : Nat) (work_dim : Nat)
    (global_work_offset global_work_size local_work_size : List Nat)
    (evt_wait_lst : List Nat) (args : List Nat) (err : GErrorPtr) :
    ccl_program_enqueue_kernel prg kernel_name cq work_dim global_work_offset
        global_work_size local_work_size evt_wait_lst err
        (args.map some ++ [none]) =
      ccl_program_enqueue_kernel_v prg kernel_name cq work_dim
        global_work_offset global_work_size local_work_size evt_wait_lst
        args err := by
  unfold ccl_program_enqueue_kernel
  rw [ccl_enqueue_args_from_va_terminated]

/- ************************ -/
/- BUILD, COMPILE, LINK API -/
/- ************************ -/

/-- One call to the underlying clBuildProgram OpenCL function, with the
exact arguments passed: the native cl_program, the device count and
list, the build options string, and the (opaque) notification callback
and user data pointers. -/
structure BuildCall where
  program : Nat
  num_devices : Nat
  devices : List Nat
  options : String
  pfn_notify : Nat
  user_data : Nat
deriving Repr, DecidableEq

/-- Modelled from the spec: body of ccl_program_build_full
(program_wrapper.c is absent from src).  Header, lines 159-164: "Builds
(compiles and links) a program executable from the program source or
binary.  This function wraps the clBuildProgram() OpenCL function";
spec: a thin pass-through with error translation only.  The OpenCL
runtime is the oracle clBuildProgram; the first component of the result
is the trace of underlying clBuildProgram calls made.  The function
performs the one call on the unwrapped cl_program with the given
arguments, returns CL_TRUE (true) when the runtime reports CL_SUCCESS,
and otherwise returns CL_FALSE (false) after reporting the translated
error through err. -/
def ccl_program_build_full (clBuildProgram : BuildCall → Int)
    (prg : CCLProgram) (num_devices : Nat) (devices : List Nat)
    (options : String) (pfn_notify : Nat) (user_data : Nat)
    (err : GErrorPtr) : List BuildCall × Bool × GErrorPtr :=
  let call : BuildCall :=
    BuildCall.mk (ccl_program_unwrap prg) num_devices devices options
      pfn_notify user_data
  let ocl_status := clBuildProgram call
  if ocl_status = CL_SUCCESS then ([call], true, err)
  else ([call], false, ccl_set_error err ocl_status "unable to build program")

/-- Modelled from the spec: body of the utility function
ccl_program_build (program_wrapper.c is absent from src).  Header,
lines 154-157: builds a program executable from the program source or
binary for all associated devices — it forwards to
ccl_program_build_full with no device list (NULL, modelled as the empty
list with count 0) and no notification callback. -/
def ccl_program_build (clBuildProgram : BuildCall → Int) (prg : CCLProgram)
    (options : String) (err : GErrorPtr) : List BuildCall × Bool × GErrorPtr :=
  ccl_program_build_full clBuildProgram prg 0 [] options 0 0 err

/-- Claim C3: ccl_program_build_full performs exactly one underlying
clBuildProgram call, on the unwrapped cl_program with exactly the given
arguments, and returns CL_TRUE if and only if that call reports
CL_SUCCESS — a thin pass-through with no behaviour beyond error
translation. -/
theorem ccl_program_build_full_pass_through (clBuildProgram : BuildCall → Int)
    (prg : CCLProgram) (num_devices : Nat) (devices : List Nat)
    (options : String) (pfn_notify : Nat) (user_data : Nat) (err : GErrorPtr) :
    (ccl_program_build_full clBuildProgram prg num_devices devices options
        pfn_notify user_data err).1 =
      [BuildCall.mk (ccl_program_unwrap prg) num_devices devices options
        pfn_notify user_data] ∧
    ((ccl_program_build_full clBuildProgram prg num_devices devices options
        pfn_notify user_data err).2.1 = true ↔
      clBuildProgram (BuildCall.mk (ccl_program_unwrap prg) num_devices
        devices options pfn_notify user_data) = CL_SUCCESS) := by
  by_cases h : clBuildProgram (BuildCall.mk (ccl_program_unwrap prg)
      num_devices devices options pfn_notify user_data) = CL_SUCCESS <;>
    simp [ccl_program_build_full, h]

/-- Claim C4: the GError reporting convention of the wrapper API, shown
on ccl_program_build and ccl_program_get_kernel — when the underlying
OpenCL call fails and the err pointer is non-NULL, the operation sets
the pointee to a translated error (CCL_OCL_ERROR domain, the OpenCL
error code) and returns its failure value (CL_FALSE for
ccl_program_build, NULL for ccl_program_get_kernel); when the operation
succeeds the err location is left unchanged. -/
theorem ccl_program_error_reporting (clBuildProgram : BuildCall → Int)
    (prg : CCLProgram) (options : String) (kernel_name : String)
    (loc : Option GError) (err : GErrorPtr) :
    (clBuildProgram (BuildCall.mk (ccl_program_unwrap prg) 0 [] options 0 0) ≠
        CL_SUCCESS →
      (ccl_program_build clBuildProgram prg options (some loc)).2.1 = false ∧
      (ccl_program_build clBuildProgram prg options (some loc)).2.2 =
        some (some (GError.mk CCL_OCL_ERROR
          (clBuildProgram (BuildCall.mk (ccl_program_unwrap prg) 0 [] options 0 0))
          "unable to build program"))) ∧
    (clBuildProgram (BuildCall.mk (ccl_program_unwrap prg) 0 [] options 0 0) =
        CL_SUCCESS →
      (ccl_program_build clBuildProgram prg options err).2.1 = true ∧
      (ccl_program_build clBuildProgram prg options err).2.2 = err) ∧
    (prg.krnls.find? (fun kv => kv.1 == kernel_name) = none →
      kernel_name ∉ prg.kernel_names →
      (ccl_program_get_kernel prg kernel_name (some loc)).2.1 = none ∧
      (ccl_program_get_kernel prg kernel_name (some loc)).2.2 =
        some (some (GError.mk CCL_OCL_ERROR CL_INVALID_KERNEL_NAME
          "unable to create kernel"))) ∧
    (((ccl_program_get_kernel prg kernel_name err).2.1).isSome = true →
      (ccl_program_get_kernel prg kernel_name err).2.2 = err) := by
  refine ⟨?_, ?_, ?_, ?_⟩
  · intro h
    simp [ccl_program_build, ccl_program_build_full, ccl_set_error, h]
  · intro h
    simp [ccl_program_build, ccl_program_build_full, h]
  · intro hfind hmem
    simp [ccl_program_get_kernel, hfind, hmem, ccl_set_error]
  · intro hsome
    cases hfind : prg.krnls.find? (fun kv => kv.1 == kernel_name) with
    | some kv => simp [ccl_program_get_kernel, hfind]
    | none =>
      by_cases hmem : kernel_name ∈ prg.kernel_names
      · simp [ccl_program_get_kernel, hfind, hmem]
      · simp [ccl_program_get_kernel, hfind, hmem] at hsome

/-- Witness for claim C4: at a concrete failing runtime (clBuildProgram
always reports -11, CL_BUILD_PROGRAM_FAILURE) and a concrete program
wrapper with no kernel function named "foo", both operations return
their failure values and set the err pointee; at an always succeeding
runtime the build leaves err unchanged. -/
theorem ccl_program_error_reporting_witness :
    ((ccl_program_build (fun _ => (-11 : Int)) (CCLProgram.mk 3 1 [] [] [] 0)
        "" (some none)).2.1 = false ∧
     (ccl_program_build (fun _ => (-11 : Int)) (CCLProgram.mk 3 1 [] [] [] 0)
        "" (some none)).2.2 =
       some (some (GError.mk CCL_OCL_ERROR
         ((fun _ => (-11 : Int)) (BuildCall.mk
           (ccl_program_unwrap (CCLProgram.mk 3 1 [] [] [] 0)) 0 [] "" 0 0))
         "unable to build program"))) ∧
    ((ccl_program_get_kernel (CCLProgram.mk 3 1 [] [] [] 0) "foo"
        (some none)).2.1 = none ∧
     (ccl_program_get_kernel (CCLProgram.mk 3 1 [] [] [] 0) "foo"
        (some none)).2.2 =
       some (some (GError.mk CCL_OCL_ERROR CL_INVALID_KERNEL_NAME
         "unable to create kernel"))) ∧
    ((ccl_program_build (fun _ => (0 : Int)) (CCLProgram.mk 3 1 [] [] [] 0)
        "" (some none)).2.1 = true ∧
     (ccl_program_build (fun _ => (0 : Int)) (CCLProgram.mk 3 1 [] [] [] 0)
        "" (some none)).2.2 = some none) :=
  ⟨(ccl_program_error_reporting (fun _ => (-11 : Int))
      (CCLProgram.mk 3 1 [] [] [] 0) "" "foo" none (some none)).1 (by decide),
   (ccl_program_error_reporting (fun _ => (-11 : Int))
      (CCLProgram.mk 3 1 [] [] [] 0) "" "foo" none (some none)).2.2.1 (by rfl)
      (by simp),
   (ccl_program_error_reporting (fun _ => (0 : Int))
      (CCLProgram.mk 3 1 [] [] [] 0) "" "foo" none (some none)).2.1 (by decide)⟩

/- *********************************** -/
/- CREATION AND DEVICE CONTAINER API   -/
/- *********************************** -/

/-- Context wrapper (CCLContext): the wrapped cl_context handle and the
device wrappers of the context.  An OpenCL context is always created
over at least one device (clCreateContext rejects an empty device
list), so a live context has a non-empty device list; theorems state
that fact as a hypothesis rather than baking it into the type. -/
structure CCLContext where
  context : Nat
  devices : List Nat
deriving Repr, DecidableEq

/-- Modelled from the spec: body of ccl_program_new_from_source
(program_wrapper.c is absent from src).  Header, lines 98-101: "Create
a new program wrapper object from a null-terminated source string"; it
wraps clCreateProgramWithSource on the given context.  The runtime
oracle returns either the created cl_program handle together with the
kernel functions it will contain, or an error code.  On success the new
wrapper has reference count 1 and is associated with the devices of the
context; on failure NULL (none) is returned and the error reported
through err. -/
def ccl_program_new_from_source
    (clCreateProgramWithSource : Nat → String → Except Int (Nat × List String))
    (ctx : CCLContext) (string : String) (err : GErrorPtr) :
    Option CCLProgram × GErrorPtr :=
  match clCreateProgramWithSource ctx.context string with
  | Except.ok res =>
    (some (CCLProgram.mk res.1 1 ctx.devices res.2 [] 0), err)
  | Except.error code =>
    (none, ccl_set_error err code "unable to create program with source")

/-- Modelled from the spec: body of ccl_program_new_from_binaries
(program_wrapper.c is absent from src).  Header, lines 130-135: "Create
a new program wrapper object from a list of binary code strings
executable on the given device list, one binary string per device"; it
wraps clCreateProgramWithBinary, which rejects an empty device list
with CL_INVALID_VALUE.  On success the new wrapper has reference count
1 and is associated with the given devices. -/
def ccl_program_new_from_binaries
    (clCreateProgramWithBinary :
      Nat → List Nat → List (List Nat) → Except Int (Nat × List String))
    (ctx : CCLContext) (devs : List Nat) (bins : List (List Nat))
    (err : GErrorPtr) : Option CCLProgram × GErrorPtr :=
  if devs = [] then
    (none, ccl_set_error err CL_INVALID_VALUE "invalid device list")
  else
    match clCreateProgramWithBinary ctx.context devs bins with
    | Except.ok res =>
      (some (CCLProgram.mk res.1 1 devs res.2 [] 0), err)
    | Except.error code =>
      (none, ccl_set_error err code "unable to create program with binaries")

/-- Modelled from the spec: body of ccl_program_new_from_built_in_kernels
(program_wrapper.c is absent from src).  Header, lines 143-146: "Create
a new program wrapper object from device built-in kernels"; it wraps
clCreateProgramWithBuiltInKernels, which rejects an empty device list
with CL_INVALID_VALUE.  On success the new wrapper has reference count
1 and is associated with the given devices. -/
def ccl_program_new_from_built_in_kernels
    (clCreateProgramWithBuiltInKernels :
      Nat → List Nat → String → Except Int (Nat × List String))
    (ctx : CCLContext) (devs : List Nat) (kernel_names : String)
    (err : GErrorPtr) : Option CCLProgram × GErrorPtr :=
  if devs = [] then
    (none, ccl_set_error err CL_INVALID_VALUE "invalid device list")
  else
    match clCreateProgramWithBuiltInKernels ctx.context devs kernel_names with
    | Except.ok res =>
      (some (CCLProgram.mk res.1 1 devs res.2 [] 0), err)
    | Except.error code =>
      (none, ccl_set_error err code "unable to create program from built-in kernels")

/-- Modelled from the spec: body of ccl_program_get_num_devices
(program_wrapper.c is absent from src).  Header, lines 219-220: "Return
number of devices in program" — the size of the device container of the
program wrapper. -/
def ccl_program_get_num_devices (prg : CCLProgram) (err : GErrorPtr) :
    Nat × GErrorPtr :=
  (prg.devices.length, err)

/-- Modelled from the spec: body of ccl_program_get_device
(program_wrapper.c is absent from src).  Header, lines 215-217: "Get
CCLDevice wrapper at given index" — the device wrapper at the given
index of the device container, NULL (none) with a reported error when
the index is out of range. -/
def ccl_program_get_device (prg : CCLProgram) (index : Nat) (err : GErrorPtr) :
    Option Nat × GErrorPtr :=
  if h : index < prg.devices.length then
    (some (prg.devices.get ⟨index, h⟩), err)
  else
    (none, ccl_set_error err CL_INVALID_VALUE "device index out of range")

/-- Property of a program wrapper used by claim C5: the device count
reported by ccl_program_get_num_devices is at least 1 and is reported
without error, and every index below the count yields a non-NULL device
wrapper from ccl_program_get_device. -/
def ccl_program_devices_ok (prg : CCLProgram) : Prop :=
  ∀ e : GErrorPtr,
    1 ≤ (ccl_program_get_num_devices prg e).1 ∧
    (ccl_program_get_num_devices prg e).2 = e ∧
    ∀ i, i < (ccl_program_get_num_devices prg e).1 →
      ((ccl_program_get_device prg i e).1).isSome = true

lemma ccl_program_devices_ok_of_ne_nil (prg : CCLProgram)
    (h : prg.devices ≠ []) : ccl_program_devices_ok prg := by
  intro e
  refine ⟨?_, rfl, ?_⟩
  · have hlen : 0 < prg.devices.length := List.length_pos.mpr h
    simpa [ccl_program_get_num_devices] using hlen
  · intro i hi
    have hi2 : i < prg.devices.length := by
      simpa [ccl_program_get_num_devices] using hi
    simp [ccl_program_get_device, hi2]

/-- Claim C5: every successfully created program wrapper — from source,
from binaries, or from built-in kernels — is associated with one or
more compute devices: ccl_program_get_num_devices returns a count of at
least 1 without error, and ccl_program_get_device returns a non-NULL
device wrapper at every index below that count.  For the from-source
case the context device list is non-empty, an OpenCL invariant of live
contexts. -/
theorem ccl_program_created_has_devices
    (clSrc : Nat → String → Except Int (Nat × List String))
    (clBin : Nat → List Nat → List (List Nat) → Except Int (Nat × List String))
    (clBik : Nat → List Nat → String → Except Int (Nat × List String))
    (ctx : CCLContext) (string : String) (devs : List Nat)
    (bins : List (List Nat)) (kernel_names : String) (err : GErrorPtr)
    (prg : CCLProgram) (hctx : ctx.devices ≠ []) :
    ((ccl_program_new_from_source clSrc ctx string err).1 = some prg →
      ccl_program_devices_ok prg) ∧
    ((ccl_program_new_from_binaries clBin ctx devs bins err).1 = some prg →
      ccl_program_devices_ok prg) ∧
    ((ccl_program_new_from_built_in_kernels clBik ctx devs kernel_names
        err).1 = some prg → ccl_program_devices_ok prg) := by
  refine ⟨?_, ?_, ?_⟩
  · intro hok
    cases hcl : clSrc ctx.context string with
    | ok res =>
      rw [ccl_program_new_from_source, hcl] at hok
      simp at hok
      refine ccl_program_devices_ok_of_ne_nil prg ?_
      rw [← hok]
      exact hctx
    | error code =>
      rw [ccl_program_new_from_source, hcl] at hok
      simp at hok
  · intro hok
    by_cases hdevs : devs = []
    · rw [ccl_program_new_from_binaries] at hok
      simp [hdevs] at hok
    · cases hcl : clBin ctx.context devs bins with
      | ok res =>
        rw [ccl_program_new_from_binaries] at hok
        simp [hdevs, hcl] at hok
        refine ccl_program_devices_ok_of_ne_nil prg ?_
        rw [← hok]
        exact hdevs
      | error code =>
        rw [ccl_program_new_from_binaries] at hok
        simp [hdevs, hcl] at hok
  · intro hok
    by_cases hdevs : devs = []
    · rw [ccl_program_new_from_built_in_kernels] at hok
      simp [hdevs] at hok
    · cases hcl : clBik ctx.context devs kernel_names with
      | ok res =>
        rw [ccl_program_new_from_built_in_kernels] at hok
        simp [hdevs, hcl] at hok
        refine ccl_program_devices_ok_of_ne_nil prg ?_
        rw [← hok]
        exact hdevs
      | error code =>
        rw [ccl_program_new_from_built_in_kernels] at hok
        simp [hdevs, hcl] at hok

/-- Witness for claim C5: a program created from source on a concrete
one-device context reports one device without error, and index 0 yields
a non-NULL device wrapper. -/
theorem ccl_program_created_has_devices_witness :
    ((ccl_program_new_from_source (fun _ _ => Except.ok (7, ["k"]))
        (CCLContext.mk 1 [4]) "src" none).1 =
      some (CCLProgram.mk 7 1 [4] ["k"] [] 0)) ∧
    ccl_program_devices_ok (CCLProgram.mk 7 1 [4] ["k"] [] 0) :=
  ⟨by rfl,
   (ccl_program_created_has_devices (fun _ _ => Except.ok (7, ["k"]))
      (fun _ _ _ => Except.error CL_INVALID_VALUE)
      (fun _ _ _ => Except.error CL_INVALID_VALUE)
      (CCLContext.mk 1 [4]) "src" [] [] "" none
      (CCLProgram.mk 7 1 [4] ["k"] [] 0) (by simp)).1 (by rfl)⟩

/- ********************* -/
/- INFO MACROS (HEADER)  -/
/- ********************* -/

/-
The three program information macros are defined in the header itself
(lines 245-300).  Each one tests param_name against CL_PROGRAM_BINARIES
and, in that case, yields NULL (or zero for the scalar macro) without
evaluating the branch that calls into the abstract wrapper layer — the
only path that reaches the underlying clGetProgramInfo.  The abstract
wrapper layer (ccl_wrapper_get_info and ccl_wrapper_get_info_value,
absent from src) is therefore an oracle parameter; like the build
oracle it returns a trace of the underlying clGetProgramInfo calls it
makes (first component), so an empty trace states that clGetProgramInfo
was not invoked.
-/

/-- Header macro, lines 245-249: ccl_program_get_info yields NULL when
CL_PROGRAM_BINARIES is requested and otherwise forwards to
ccl_wrapper_get_info (which reaches clGetProgramInfo) with the program
wrapper, the parameter name and the err location.  The info object is
modelled as a Nat identity (none for NULL). -/
def ccl_program_get_info
    (ccl_wrapper_get_info : CCLProgram → Nat → GErrorPtr →
      List Nat × Option Nat × GErrorPtr)
    (prg : CCLProgram) (param_name : Nat) (err : GErrorPtr) :
    List Nat × Option Nat × GErrorPtr :=
  if param_name = CL_PROGRAM_BINARIES then ([], none, err)
  else ccl_wrapper_get_info prg param_name err

/-- Header macro, lines 268-273: ccl_program_get_scalar_info yields
zero (of the requested type) when CL_PROGRAM_BINARIES is requested and
otherwise dereferences the value returned by
ccl_wrapper_get_info_value (which reaches clGetProgramInfo).  The
scalar value is modelled as a Nat. -/
def ccl_program_get_scalar_info
    (ccl_wrapper_get_info_value : CCLProgram → Nat → GErrorPtr →
      List Nat × Nat × GErrorPtr)
    (prg : CCLProgram) (param_name : Nat) (err : GErrorPtr) :
    List Nat × Nat × GErrorPtr :=
  if param_name = CL_PROGRAM_BINARIES then ([], 0, err)
  else ccl_wrapper_get_info_value prg param_name err

/-- Header macro, lines 295-300: ccl_program_get_array_info yields NULL
when CL_PROGRAM_BINARIES is requested and otherwise casts the value
returned by ccl_wrapper_get_info_value (which reaches
clGetProgramInfo).  The array value is modelled as a Nat identity (none
for NULL). -/
def ccl_program_get_array_info
    (ccl_wrapper_get_info_value : CCLProgram → Nat → GErrorPtr →
      List Nat × Option Nat × GErrorPtr)
    (prg : CCLProgram) (param_name : Nat) (err : GErrorPtr) :
    List Nat × Option Nat × GErrorPtr :=
  if param_name = CL_PROGRAM_BINARIES then ([], none, err)
  else ccl_wrapper_get_info_value prg param_name err

/-- Claim C8: for every program wrapper, err location and abstract
wrapper layer (oracle), requesting CL_PROGRAM_BINARIES makes
ccl_program_get_info and ccl_program_get_array_info return NULL and
ccl_program_get_scalar_info return zero, in each case with an empty
trace of underlying clGetProgramInfo calls (the call is not invoked)
and err untouched; binaries are only obtainable via
ccl_program_get_binary. -/
theorem ccl_program_info_binaries_blocked
    (gi : CCLProgram → Nat → GErrorPtr → List Nat × Option Nat × GErrorPtr)
    (gv : CCLProgram → Nat → GErrorPtr → List Nat × Nat × GErrorPtr)
    (ga : CCLProgram → Nat → GErrorPtr → List Nat × Option Nat × GErrorPtr)
    (prg : CCLProgram) (err : GErrorPtr) :
    ccl_program_get_info gi prg CL_PROGRAM_BINARIES err = ([], none, err) ∧
    ccl_program_get_scalar_info gv prg CL_PROGRAM_BINARIES err = ([], 0, err) ∧
    ccl_program_get_array_info ga prg CL_PROGRAM_BINARIES err =
      ([], none, err) := by
  refine ⟨?_, ?_, ?_⟩ <;>
    simp [ccl_program_get_info, ccl_program_get_scalar_info,
      ccl_program_get_array_info]

end Cf4ocl
